import Mathlib

/-!
Verification development for the Mode 7 renderer in src/m7.h.

The C source is shallowly embedded over an arbitrary linear ordered field
(instantiated at ℚ for concrete evaluations and at ℝ where the camera
operations involve trigonometry).  Machine floats are idealized as exact
field arithmetic; the integer fields of the C structs (texture sizes,
render-target dimensions) are kept as Int so that the integer division
`width / 2` of the source is modelled exactly.

Memory modelling: a pointer returned by the element-buffer add is modelled
as the index of the backing slot; the backing array, of which only the
first `count` slots are ever initialized and read by the source, is
modelled as the list of those initialized slots (so `elems.length = count`
in every state built by the operations).  GPU-side effects (shader uniform
uploads, actual raster output) are modelled as emitted command traces.
-/

namespace M7

/-- 2D vector, mirroring raylib Vector2. -/
@[ext] structure Vec2 (α : Type) where
  x : α
  y : α
  deriving DecidableEq

/-- 3D vector, mirroring raylib Vector3 (returned by M7_ToScreen). -/
@[ext] structure Vec3 (α : Type) where
  x : α
  y : α
  z : α
  deriving DecidableEq

/-- Rectangle, mirroring raylib Rectangle. -/
@[ext] structure Rect (α : Type) where
  x : α
  y : α
  width : α
  height : α
  deriving DecidableEq

/-- 2x2 matrix, mirroring the Matrix2x2 struct of m7.h. -/
@[ext] structure Matrix2x2 (α : Type) where
  m0 : α
  m1 : α
  m2 : α
  m3 : α
  deriving DecidableEq

/-- RGBA color, mirroring raylib Color. -/
structure Color where
  r : Nat
  g : Nat
  b : Nat
  a : Nat
  deriving DecidableEq

/-- Texture handle, mirroring the raylib Texture2D fields the source reads. -/
structure Texture2D where
  id : Nat
  width : Int
  height : Int
  deriving DecidableEq

/-- struct M7_ZBuffer_Element_SpaceData. -/
structure M7_ZBuffer_Element_SpaceData (α : Type) where
  rectangle : Rect α
  position : Vec2 α
  scale : Vec2 α
  deriving DecidableEq

/-- enum M7_ZBuffer_Element_Type. -/
inductive M7_ZBuffer_Element_Type where
  | texture
  | rectangle
  | circle
  deriving DecidableEq

/-- M7_ZBuffer_Element: one drawable element of the Z-buffer. -/
structure M7_ZBuffer_Element (α : Type) where
  onWorld : M7_ZBuffer_Element_SpaceData α
  onScreen : M7_ZBuffer_Element_SpaceData α
  texture : Texture2D
  distance : α
  tint : Color
  type : M7_ZBuffer_Element_Type
  deriving DecidableEq

/-- The M7_ZBuffer struct.  `ptrElems` holds backing-array indices (the
model of the element pointers); `elems` is the initialized prefix of the
backing array; `maxCount` and `count` mirror the C fields. -/
structure M7_ZBuffer (α : Type) where
  ptrElems : List Nat
  elems : List (M7_ZBuffer_Element α)
  maxCount : Nat
  count : Nat
  deriving DecidableEq

/-- The M7_Camera struct (GPU program handles and uniform locations are
external resources and carry no modelled state; the render target is
represented by its dimensions). -/
structure M7_Camera (α : Type) where
  targetW : Int
  targetH : Int
  buffer : M7_ZBuffer α
  rotMat : Matrix2x2 α
  position : Vec2 α
  rotation : α
  zoom : α
  fov : α
  offset : α
  aspect : α
  deriving DecidableEq

variable {α : Type} [LinearOrderedField α]

/-- An all-zero element (the value of an uninitialized / zero-initialized
slot; the C enum value 0 is M7_ZBT_TEXTURE). -/
def zeroElement : M7_ZBuffer_Element α :=
  { onWorld := ⟨⟨0, 0, 0, 0⟩, ⟨0, 0⟩, ⟨0, 0⟩⟩
    onScreen := ⟨⟨0, 0, 0, 0⟩, ⟨0, 0⟩, ⟨0, 0⟩⟩
    texture := ⟨0, 0, 0⟩
    distance := 0
    tint := ⟨0, 0, 0, 0⟩
    type := .texture }

/-- Element stored at backing index `i`. -/
def elemAt (buffer : M7_ZBuffer α) (i : Nat) : M7_ZBuffer_Element α :=
  buffer.elems.getD i zeroElement

/-- M7_ToScreen: world coordinates to screen coordinates plus apparent
size, following the source line by line.  `targetW / 2` is the C integer
division of the two int-typed expressions. -/
def M7_ToScreen (camera : M7_Camera α) (point : Vec2 α) : Vec3 α :=
  let objX := -(camera.position.x - point.x) / camera.zoom
  let objY := (camera.position.y - point.y) / camera.zoom
  let spaceX := -objX * camera.rotMat.m0 - objY * camera.rotMat.m1
  let spaceY := (objX * camera.rotMat.m2 + objY * camera.rotMat.m3) * camera.fov
  let distance := 1 - spaceY
  let screenPosX :=
    spaceX / distance * camera.offset * (camera.targetW : α) + ((camera.targetW / 2 : Int) : α)
  let screenPosY :=
    (spaceY + camera.offset - 1) / distance * (camera.targetH : α) + (camera.targetH : α)
  let size := camera.offset * (camera.targetW : α) / (camera.zoom * distance)
  ⟨screenPosX, screenPosY, size⟩

/-- M7_ToWorld: screen coordinates to world coordinates, following the
source line by line. -/
def M7_ToWorld (camera : M7_Camera α) (point : Vec2 α) : Vec2 α :=
  let sx := (((camera.targetW / 2 : Int) : α) - point.x) * (camera.zoom / camera.aspect)
  let sy := (camera.offset * (camera.targetH : α) - point.y) * (camera.zoom / camera.fov)
  let rotX := sx * camera.rotMat.m0 + sy * camera.rotMat.m1
  let rotY := sx * camera.rotMat.m2 + sy * camera.rotMat.m3
  ⟨rotX / point.y + camera.position.x, rotY / point.y + camera.position.y⟩

/-- The source local `distance` of M7_ToScreen (the perspective depth
term), exposed as a definition so that specifications can refer to the
depth of a point. -/
def M7_depthAt (camera : M7_Camera α) (point : Vec2 α) : α :=
  1 -
    (-(camera.position.x - point.x) / camera.zoom * camera.rotMat.m2 +
        (camera.position.y - point.y) / camera.zoom * camera.rotMat.m3) *
      camera.fov

/-- Division that records a zero divisor instead of producing a value. -/
def divChecked (a b : α) : Option α :=
  if b = 0 then none else some (a / b)

/-- M7_ToWorld with every division of the source guarded: the result is
none exactly when some divisor of the source expression is zero. -/
def M7_ToWorldChecked (camera : M7_Camera α) (point : Vec2 α) : Option (Vec2 α) := do
  let qa ← divChecked camera.zoom camera.aspect
  let qf ← divChecked camera.zoom camera.fov
  let sx := (((camera.targetW / 2 : Int) : α) - point.x) * qa
  let sy := (camera.offset * (camera.targetH : α) - point.y) * qf
  let rotX := sx * camera.rotMat.m0 + sy * camera.rotMat.m1
  let rotY := sx * camera.rotMat.m2 + sy * camera.rotMat.m3
  let rx ← divChecked rotX point.y
  let ry ← divChecked rotY point.y
  some ⟨rx + camera.position.x, ry + camera.position.y⟩

/-
    Z-Buffer management
-/

/-- M7_ZBuffer_Load: a fresh buffer of capacity `maxElements` (the C
malloc yields uninitialized arrays; only the initialized prefix is
modelled, so both lists start empty). -/
def M7_ZBuffer_Load (maxElements : Nat) : M7_ZBuffer α :=
  { ptrElems := [], elems := [], maxCount := maxElements, count := 0 }

/-- M7_ZBuffer_Unload: frees the arrays and zeroes the counters. -/
def M7_ZBuffer_Unload (_buffer : M7_ZBuffer α) : M7_ZBuffer α :=
  { ptrElems := [], elems := [], maxCount := 0, count := 0 }

/-- M7_ZBuffer_Element_Add: returns NULL (none) when the buffer is full,
otherwise copies the element into slot `count`, appends the matching
sort pointer, and returns the address (index) of the new slot. -/
def M7_ZBuffer_Element_Add (buffer : M7_ZBuffer α) (elem : M7_ZBuffer_Element α) :
    Option Nat × M7_ZBuffer α :=
  if buffer.count == buffer.maxCount then (none, buffer)
  else
    (some buffer.count,
      { buffer with
          elems := buffer.elems ++ [elem]
          ptrElems := buffer.ptrElems ++ [buffer.count]
          count := buffer.count + 1 })

/-- M7_Texture_Add: builds the textured element exactly as the source
initializer does (remaining fields zero) and adds it to the buffer. -/
def M7_Texture_Add (camera : M7_Camera α) (texture : Texture2D) (source : Rect α)
    (position : Vec2 α) (scale : Vec2 α) (tint : Color) : Option Nat × M7_Camera α :=
  let tex : M7_ZBuffer_Element α :=
    { zeroElement with
        onWorld := ⟨source, position, scale⟩
        type := .texture
        texture := texture
        tint := tint }
  let res := M7_ZBuffer_Element_Add camera.buffer tex
  (res.1, { camera with buffer := res.2 })

/-- M7_Rectangle_Add. -/
def M7_Rectangle_Add (camera : M7_Camera α) (rectangle : Rect α) (tint : Color) :
    Option Nat × M7_Camera α :=
  let rect : M7_ZBuffer_Element α :=
    { zeroElement with
        onWorld := ⟨⟨rectangle.x, rectangle.y, 1, 1⟩, ⟨rectangle.x, rectangle.y⟩,
          ⟨rectangle.width, rectangle.height⟩⟩
        type := .rectangle
        tint := tint }
  let res := M7_ZBuffer_Element_Add camera.buffer rect
  (res.1, { camera with buffer := res.2 })

/-- M7_Circle_Add. -/
def M7_Circle_Add (camera : M7_Camera α) (position : Vec2 α) (radius : α) (tint : Color) :
    Option Nat × M7_Camera α :=
  let circle : M7_ZBuffer_Element α :=
    { zeroElement with
        onWorld := ⟨⟨position.x - radius, position.y - radius, 1, 1⟩, position,
          ⟨radius, radius⟩⟩
        type := .circle
        tint := tint }
  let res := M7_ZBuffer_Element_Add camera.buffer circle
  (res.1, { camera with buffer := res.2 })

/-- M7_ZBuffer_Element_Update: recompute the screen-space data of one
element from the camera, following the source line by line (note the
source computes the on-screen rectangle height from the world rectangle
WIDTH, line 767 of m7.h). -/
def M7_ZBuffer_Element_Update (elem : M7_ZBuffer_Element α) (camera : M7_Camera α) :
    M7_ZBuffer_Element α :=
  let posAndSize := M7_ToScreen camera elem.onWorld.position
  let scaleX := posAndSize.z * elem.onWorld.scale.x / elem.onWorld.rectangle.width
  let scaleY := posAndSize.z * elem.onWorld.scale.y / elem.onWorld.rectangle.height
  { elem with
      onScreen :=
        { rectangle :=
            ⟨posAndSize.x - elem.onWorld.rectangle.width * scaleX * (1 / 2),
              posAndSize.y - elem.onWorld.rectangle.height * scaleY,
              elem.onWorld.rectangle.width * scaleX,
              elem.onWorld.rectangle.width * scaleY⟩
          position := ⟨posAndSize.x, posAndSize.y⟩
          scale := ⟨scaleX, scaleY⟩ }
      distance := posAndSize.z }

/-- One emitted raylib draw call of the element draw pass. -/
inductive M7_DrawCmd (α : Type) where
  | drawTexturePro (texture : Texture2D) (source dest : Rect α) (tint : Color)
  | drawRectangleRec (rect : Rect α) (tint : Color)
  | drawCircleV (center : Vec2 α) (radius : α) (tint : Color)
  deriving DecidableEq

/-- M7_ZBuffer_Element_Draw: the draw call one element emits; a textured
element whose on-screen scale sign test fails emits nothing. -/
def M7_ZBuffer_Element_Draw (elem : M7_ZBuffer_Element α) : Option (M7_DrawCmd α) :=
  match elem.type with
  | .texture =>
      if ((0 < elem.onScreen.scale.x) ↔ (0 < elem.onWorld.scale.x))
          ∧ ((0 < elem.onScreen.scale.y) ↔ (0 < elem.onWorld.scale.y)) then
        some (.drawTexturePro elem.texture elem.onWorld.rectangle elem.onScreen.rectangle
          elem.tint)
      else none
  | .rectangle => some (.drawRectangleRec elem.onScreen.rectangle elem.tint)
  | .circle =>
      some (.drawCircleV
        ⟨elem.onScreen.position.x, elem.onScreen.position.y - elem.onScreen.rectangle.width⟩
        elem.onScreen.rectangle.width elem.tint)

/-- M7_ZBuffer_Compare: the qsort comparator,
(e1->distance > e2->distance) - (e1->distance < e2->distance). -/
def M7_ZBuffer_Compare (e1 e2 : M7_ZBuffer_Element α) : Int :=
  (if e2.distance < e1.distance then 1 else 0) - (if e1.distance < e2.distance then 1 else 0)

/-- M7_ZBuffer_Sort: sorts the pointer array so that the comparator is
non-positive along it (the qsort post-condition); qsort is modelled by
insertion sort, a comparator-consistent sort. -/
def M7_ZBuffer_Sort (buffer : M7_ZBuffer α) : M7_ZBuffer α :=
  { buffer with
      ptrElems :=
        List.insertionSort
          (fun i j => M7_ZBuffer_Compare (elemAt buffer i) (elemAt buffer j) ≤ 0)
          buffer.ptrElems }

/-- The element array after M7_ZBuffer_Update: every slot reached through
the pointer array is overwritten with its recomputed screen data. -/
def M7_ZBuffer_UpdateElems (ptrs : List Nat) (elems : List (M7_ZBuffer_Element α))
    (camera : M7_Camera α) : List (M7_ZBuffer_Element α) :=
  ptrs.foldl
    (fun es i => es.set i (M7_ZBuffer_Element_Update (es.getD i zeroElement) camera)) elems

/-- M7_ZBuffer_Update: updates every element reached through ptrElems. -/
def M7_ZBuffer_Update (camera : M7_Camera α) : M7_Camera α :=
  { camera with
      buffer :=
        { camera.buffer with
            elems :=
              M7_ZBuffer_UpdateElems camera.buffer.ptrElems camera.buffer.elems camera } }

/-- M7_ZBuffer_Draw: visits the elements in pointer-array order, emitting
each element's draw call (none for a suppressed textured element). -/
def M7_ZBuffer_Draw (buffer : M7_ZBuffer α) : List (Option (M7_DrawCmd α)) :=
  buffer.ptrElems.map (fun i => M7_ZBuffer_Element_Draw (elemAt buffer i))

/-
    Camera lifecycle and setters.  Each operation returns the new camera
    state together with the trace of render commands it issues.
-/

/-- One render-pipeline command issued by the camera facade. -/
inductive M7_RenderCmd (α : Type) where
  | beginTextureMode
  | clearBackground (color : Color)
  | planeDraw (texture : Texture2D) (mapSize camPos : Vec2 α) (wrap : Int)
  | element (cmd : Option (M7_DrawCmd α))
  | endTextureMode
  | blitTarget
  deriving DecidableEq

/-- M7_Camera_SetPosition. -/
def M7_Camera_SetPosition (camera : M7_Camera α) (position : Vec2 α) : M7_Camera α :=
  { camera with position := position }

/-- M7_Camera_SetZoom (the uniform upload is an external effect). -/
def M7_Camera_SetZoom (camera : M7_Camera α) (zoom : α) : M7_Camera α :=
  { camera with zoom := zoom }

/-- M7_Camera_SetFOV. -/
def M7_Camera_SetFOV (camera : M7_Camera α) (fov : α) : M7_Camera α :=
  { camera with fov := fov }

/-- M7_Camera_SetOffset. -/
def M7_Camera_SetOffset (camera : M7_Camera α) (offset : α) : M7_Camera α :=
  { camera with offset := offset }

/-- M7_Camera_Translate: moves the position through the rotation matrix. -/
def M7_Camera_Translate (camera : M7_Camera α) (dx dy : α) : M7_Camera α :=
  M7_Camera_SetPosition camera
    ⟨camera.position.x + (dx * camera.rotMat.m0 + dy * camera.rotMat.m1),
      camera.position.y + (dx * camera.rotMat.m2 + dy * camera.rotMat.m3)⟩

/-- M7_Camera_Begin: binds the target and clears it. -/
def M7_Camera_Begin (camera : M7_Camera α) (backgroundColor : Color) :
    M7_Camera α × List (M7_RenderCmd α) :=
  (camera, [.beginTextureMode, .clearBackground backgroundColor])

/-- M7_Camera_DrawPlane: uploads the computed mapSize/camPos/wrap and
draws the plane through the remap shader (one planeDraw command). -/
def M7_Camera_DrawPlane (camera : M7_Camera α) (texture : Texture2D)
    (position origin scale : Vec2 α) (wrap : Int) :
    M7_Camera α × List (M7_RenderCmd α) :=
  let mapSize : Vec2 α := ⟨(texture.width : α) * scale.x, (texture.height : α) * scale.y⟩
  let camPos : Vec2 α :=
    ⟨camera.position.x + position.x + origin.x, camera.position.y + position.y + origin.y⟩
  (camera, [.planeDraw texture mapSize camPos wrap])

/-- M7_Camera_End: element update, sort, draw pass, unbind. -/
def M7_Camera_End (camera : M7_Camera α) : M7_Camera α × List (M7_RenderCmd α) :=
  let c1 := M7_ZBuffer_Update camera
  let c2 := { c1 with buffer := M7_ZBuffer_Sort c1.buffer }
  (c2, (M7_ZBuffer_Draw c2.buffer).map M7_RenderCmd.element ++ [.endTextureMode])

/-- M7_Camera_Update: the single-plane convenience path, written exactly
as the source body (Begin, one centered DrawPlane, End). -/
def M7_Camera_Update (camera : M7_Camera α) (texture : Texture2D)
    (position scale : Vec2 α) (wrap : Int) (backgroundColor : Color) :
    M7_Camera α × List (M7_RenderCmd α) :=
  let bc := M7_Camera_Begin camera backgroundColor
  let dc := M7_Camera_DrawPlane bc.1 texture position
    ⟨(texture.width : α) * scale.x * (1 / 2), (texture.height : α) * scale.y * (1 / 2)⟩
    scale wrap
  let ec := M7_Camera_End dc.1
  (ec.1, bc.2 ++ dc.2 ++ ec.2)

/-- M7_Camera_Render: blits the target to the screen. -/
def M7_Camera_Render (camera : M7_Camera α) : M7_Camera α × List (M7_RenderCmd α) :=
  (camera, [.blitTarget])

/-- M7_Camera_Unload: releases target, shader and buffer. -/
def M7_Camera_Unload (camera : M7_Camera α) : M7_Camera α :=
  { camera with buffer := M7_ZBuffer_Unload camera.buffer }

/-
    The rotation setter and camera creation involve cosf/sinf and are
    therefore defined over ℝ.
-/

/-- M7_Camera_SetRotation: stores the angle and recomputes the cached
rotation matrix from its cosine and sine (the glUniformMatrix2fv upload
is an external effect). -/
noncomputable def M7_Camera_SetRotation (camera : M7_Camera ℝ) (rotation : ℝ) : M7_Camera ℝ :=
  { camera with
      rotation := rotation
      rotMat :=
        ⟨Real.cos rotation, -Real.sin rotation, Real.sin rotation, Real.cos rotation⟩ }

/-- M7_Camera_Rotate: rotates by a delta through the rotation setter. -/
noncomputable def M7_Camera_Rotate (camera : M7_Camera ℝ) (delta : ℝ) : M7_Camera ℝ :=
  M7_Camera_SetRotation camera (camera.rotation + delta)

/-- M7_Camera_Load: builds the camera (aspect is the larger screen
dimension over the smaller one), allocates the buffer, then applies the
initial parameters through the setters in source order. -/
noncomputable def M7_Camera_Load (screenWidth screenHeight : Int) (position : Vec2 ℝ)
    (rotation zoom fov offset : ℝ) (maxSprites : Nat) : M7_Camera ℝ :=
  let camera : M7_Camera ℝ :=
    { targetW := screenWidth
      targetH := screenHeight
      buffer := M7_ZBuffer_Load maxSprites
      rotMat := ⟨0, 0, 0, 0⟩
      position := ⟨0, 0⟩
      rotation := 0
      zoom := 0
      fov := 0
      offset := 0
      aspect :=
        if screenWidth > screenHeight then (screenWidth : ℝ) / (screenHeight : ℝ)
        else (screenHeight : ℝ) / (screenWidth : ℝ) }
  M7_Camera_SetFOV
    (M7_Camera_SetZoom
      (M7_Camera_SetOffset
        (M7_Camera_SetRotation (M7_Camera_SetPosition camera position) rotation) offset)
      zoom) fov

/-
    Reachable camera states.  M7_Camera_Move only composes Translate,
    Rotate, SetFOV, SetZoom and SetOffset with input-derived arguments,
    so its states are covered by those steps.
-/

/-- One request to an add operation of the public API. -/
inductive M7_AddRequest (α : Type) where
  | texture (texture : Texture2D) (source : Rect α) (position scale : Vec2 α) (tint : Color)
  | rectangle (rectangle : Rect α) (tint : Color)
  | circle (position : Vec2 α) (radius : α) (tint : Color)

/-- Dispatches one add request to the matching add operation. -/
def M7_applyAdd (camera : M7_Camera α) : M7_AddRequest α → Option Nat × M7_Camera α
  | .texture texture source position scale tint =>
      M7_Texture_Add camera texture source position scale tint
  | .rectangle rectangle tint => M7_Rectangle_Add camera rectangle tint
  | .circle position radius tint => M7_Circle_Add camera position radius tint

/-- The element record an add request copies into the backing array. -/
def M7_requestElement : M7_AddRequest α → M7_ZBuffer_Element α
  | .texture texture source position scale tint =>
      { zeroElement with
          onWorld := ⟨source, position, scale⟩
          type := .texture
          texture := texture
          tint := tint }
  | .rectangle rectangle tint =>
      { zeroElement with
          onWorld := ⟨⟨rectangle.x, rectangle.y, 1, 1⟩, ⟨rectangle.x, rectangle.y⟩,
            ⟨rectangle.width, rectangle.height⟩⟩
          type := .rectangle
          tint := tint }
  | .circle position radius tint =>
      { zeroElement with
          onWorld := ⟨⟨position.x - radius, position.y - radius, 1, 1⟩, position,
            ⟨radius, radius⟩⟩
          type := .circle
          tint := tint }

/-- Runs a list of add requests in order, collecting the returned
references. -/
def M7_runAdds : M7_Camera α → List (M7_AddRequest α) → List (Option Nat) × M7_Camera α
  | camera, [] => ([], camera)
  | camera, req :: reqs =>
      let first := M7_applyAdd camera req
      let rest := M7_runAdds first.2 reqs
      (first.1 :: rest.1, rest.2)

/-- One state transition of the camera facade (the operations that leave
the camera state unchanged, Begin, DrawPlane and Render, induce no
transition; M7_Camera_Update factors as Begin, DrawPlane, End). -/
inductive M7_Step : M7_Camera ℝ → M7_Camera ℝ → Prop where
  | setPosition (c : M7_Camera ℝ) (p : Vec2 ℝ) : M7_Step c (M7_Camera_SetPosition c p)
  | setRotation (c : M7_Camera ℝ) (r : ℝ) : M7_Step c (M7_Camera_SetRotation c r)
  | setZoom (c : M7_Camera ℝ) (z : ℝ) : M7_Step c (M7_Camera_SetZoom c z)
  | setFOV (c : M7_Camera ℝ) (f : ℝ) : M7_Step c (M7_Camera_SetFOV c f)
  | setOffset (c : M7_Camera ℝ) (o : ℝ) : M7_Step c (M7_Camera_SetOffset c o)
  | translate (c : M7_Camera ℝ) (dx dy : ℝ) : M7_Step c (M7_Camera_Translate c dx dy)
  | rotate (c : M7_Camera ℝ) (d : ℝ) : M7_Step c (M7_Camera_Rotate c d)
  | add (c : M7_Camera ℝ) (req : M7_AddRequest ℝ) : M7_Step c (M7_applyAdd c req).2
  | endFrame (c : M7_Camera ℝ) : M7_Step c (M7_Camera_End c).1
  | unload (c : M7_Camera ℝ) : M7_Step c (M7_Camera_Unload c)

/-- A camera state reachable from some M7_Camera_Load call through the
public operations. -/
def M7_Reachable (c : M7_Camera ℝ) : Prop :=
  ∃ screenWidth screenHeight position rotation zoom fov offset maxSprites,
    Relation.ReflTransGen M7_Step
      (M7_Camera_Load screenWidth screenHeight position rotation zoom fov offset maxSprites) c

/-
    Concrete states used by the numeric scenarios (the demo program of
    main.c runs at 1280x720 with camera position (0,0), rotation 0,
    zoom 80, fov 0.5, offset 0.5, capacity 48).
-/

/-- The camera state M7_Camera_Load(1280, 720, (0,0), 0, 80, 0.5, 0.5, 48)
produces: identity rotation matrix (cos 0 = 1, sin 0 = 0) and aspect
1280/720. -/
def demoCamera : M7_Camera α :=
  { targetW := 1280
    targetH := 720
    buffer := M7_ZBuffer_Load 48
    rotMat := ⟨1, 0, 0, 1⟩
    position := ⟨0, 0⟩
    rotation := 0
    zoom := 80
    fov := 1 / 2
    offset := 1 / 2
    aspect := 1280 / 720 }

/-- The camera state M7_Camera_Load(720, 1280, (0,0), 0, 1, 1, 0.5, 0)
produces: a portrait target, for which aspect = 1280/720 (the larger
dimension over the smaller one). -/
def portraitCamera : M7_Camera α :=
  { targetW := 720
    targetH := 1280
    buffer := M7_ZBuffer_Load 0
    rotMat := ⟨1, 0, 0, 1⟩
    position := ⟨0, 0⟩
    rotation := 0
    zoom := 1
    fov := 1
    offset := 1 / 2
    aspect := 1280 / 720 }

/-- A textured element whose world source rectangle is 2 wide and 1 high
(a non-square source), at world position (0,0) with world scale (1,1). -/
def wideElement : M7_ZBuffer_Element α :=
  { zeroElement with
      onWorld := ⟨⟨0, 0, 2, 1⟩, ⟨0, 0⟩, ⟨1, 1⟩⟩
      type := .texture }

/-- A textured element with world scale (8,8) whose computed screen scale
has flipped to (-8,-8), as happens behind the camera. -/
def flippedTexturedElement : M7_ZBuffer_Element α :=
  { zeroElement with
      onWorld := ⟨⟨0, 0, 16, 16⟩, ⟨0, 0⟩, ⟨8, 8⟩⟩
      onScreen := ⟨⟨0, 0, 16, 16⟩, ⟨0, 0⟩, ⟨-8, -8⟩⟩
      type := .texture }

/-- A rectangle element with the same geometry as
flippedTexturedElement. -/
def flippedRectangleElement : M7_ZBuffer_Element α :=
  { flippedTexturedElement with type := M7_ZBuffer_Element_Type.rectangle }

/-
    Theorems
-/

/-- Claim C1: for every camera state, M7_ToScreen computes the depth of a
world point as 1 minus the rotated, fov-scaled vertical camera-space
coordinate (camera-space coordinates being (P - cameraPos)/zoom with the
vertical axis inverted), and returns an apparent size equal to
(offset x surface width) / (zoom x depth); for the demo camera at
position (0,0), rotation 0, zoom 80, fov 0.5, offset 0.5 on a 1280x720
target, the world point (0,0) yields depth = 1, screen x exactly 640
(half of 1280), screen y = ((0 + offset - 1)/1) x height + height, and
apparent size (offset x width)/(zoom x 1). -/
theorem claim_C1_toScreen_depth_and_size :
    (∀ (camera : M7_Camera α) (point : Vec2 α),
        M7_depthAt camera point =
          1 -
            ((point.x - camera.position.x) / camera.zoom * camera.rotMat.m2 +
                -((point.y - camera.position.y) / camera.zoom) * camera.rotMat.m3) *
              camera.fov) ∧
    (∀ (camera : M7_Camera α) (point : Vec2 α),
        (M7_ToScreen camera point).z =
          camera.offset * (camera.targetW : α) / (camera.zoom * M7_depthAt camera point)) ∧
    M7_depthAt (demoCamera (α := α)) ⟨0, 0⟩ = 1 ∧
    (M7_ToScreen (demoCamera (α := α)) ⟨0, 0⟩).x = 640 ∧
    (640 : α) = ((1280 : α) / 2) ∧
    (M7_ToScreen (demoCamera (α := α)) ⟨0, 0⟩).y = ((0 + (1 : α) / 2 - 1) / 1) * 720 + 720 ∧
    (M7_ToScreen (demoCamera (α := α)) ⟨0, 0⟩).z = ((1 : α) / 2 * 1280) / (80 * 1) := by
  refine ⟨fun camera point => ?_, fun camera point => rfl, ?_, ?_, by norm_num, ?_, ?_⟩
  · simp only [M7_depthAt]; ring
  · norm_num [M7_depthAt, demoCamera]
  · norm_num [M7_ToScreen, demoCamera]
  · norm_num [M7_ToScreen, demoCamera]
  · norm_num [M7_ToScreen, demoCamera]

/-- Claim C4: in the End-phase draw pass a textured element is drawn iff
the sign of its computed screen-space scale agrees with the sign of its
world-space scale on both axes (the source compares positivity), while
rectangle and circle elements are always drawn; the textured element
with world scale (8,8) and screen scale (-8,-8) is excluded while a
rectangle with the same geometry is drawn. -/
theorem claim_C4_sign_suppression :
    (∀ e : M7_ZBuffer_Element α, e.type = .texture →
        ((M7_ZBuffer_Element_Draw e).isSome ↔
          ((0 < e.onScreen.scale.x ↔ 0 < e.onWorld.scale.x) ∧
            (0 < e.onScreen.scale.y ↔ 0 < e.onWorld.scale.y)))) ∧
    (∀ e : M7_ZBuffer_Element α, e.type = .rectangle →
        (M7_ZBuffer_Element_Draw e).isSome) ∧
    (∀ e : M7_ZBuffer_Element α, e.type = .circle →
        (M7_ZBuffer_Element_Draw e).isSome) ∧
    (flippedTexturedElement (α := α)).onWorld.scale = ⟨8, 8⟩ ∧
    (flippedTexturedElement (α := α)).onScreen.scale.x = -8 ∧
    M7_ZBuffer_Element_Draw (flippedTexturedElement (α := α)) = none ∧
    (M7_ZBuffer_Element_Draw (flippedRectangleElement (α := α))).isSome := by
  refine ⟨fun e he => ?_, fun e he => ?_, fun e he => ?_, rfl, rfl, ?_, ?_⟩
  · unfold M7_ZBuffer_Element_Draw
    rw [he]
    split_ifs with hc
    · simpa using hc
    · simpa using hc
  · unfold M7_ZBuffer_Element_Draw; rw [he]; rfl
  · unfold M7_ZBuffer_Element_Draw; rw [he]; rfl
  · unfold M7_ZBuffer_Element_Draw
    have hx : ¬(0 < (-8 : α)) := by norm_num
    have hwx : (0 : α) < 8 := by norm_num
    simp [flippedTexturedElement, zeroElement, hx, hwx]
  · rfl

/-- Witness for claim C4: the textured/always-drawn rules applied at the
concrete flipped element over ℚ. -/
theorem claim_C4_sign_suppression_witness :
    ((flippedTexturedElement (α := ℚ)).type = .texture ∧
      (flippedRectangleElement (α := ℚ)).type = .rectangle) ∧
    ((M7_ZBuffer_Element_Draw (flippedTexturedElement (α := ℚ))).isSome ↔
      ((0 < (flippedTexturedElement (α := ℚ)).onScreen.scale.x ↔
          0 < (flippedTexturedElement (α := ℚ)).onWorld.scale.x) ∧
        (0 < (flippedTexturedElement (α := ℚ)).onScreen.scale.y ↔
          0 < (flippedTexturedElement (α := ℚ)).onWorld.scale.y))) ∧
    (M7_ZBuffer_Element_Draw (flippedRectangleElement (α := ℚ))).isSome :=
  ⟨⟨rfl, rfl⟩, (claim_C4_sign_suppression (α := ℚ)).1 _ rfl,
    (claim_C4_sign_suppression (α := ℚ)).2.1 _ rfl⟩

/-- Claim C8: the only partial operation of M7_ToWorld is the division by
the input point's vertical coordinate: given the data-model constraints
that aspect and fov are nonzero, the fully division-checked transform
fails exactly on vertical coordinate 0 and otherwise agrees with the
unchecked transform. -/
theorem claim_C8_toWorld_partiality (camera : M7_Camera α) (point : Vec2 α)
    (ha : camera.aspect ≠ 0) (hf : camera.fov ≠ 0) :
    (M7_ToWorldChecked camera point = none ↔ point.y = 0) ∧
    (point.y ≠ 0 → M7_ToWorldChecked camera point = some (M7_ToWorld camera point)) := by
  constructor
  · by_cases hy : point.y = 0 <;>
      simp [M7_ToWorldChecked, M7_ToWorld, divChecked, ha, hf, hy]
  · intro hy
    simp [M7_ToWorldChecked, M7_ToWorld, divChecked, ha, hf, hy]

/-- Witness for claim C8 at the demo camera over ℚ and the screen point
(0, 5). -/
theorem claim_C8_toWorld_partiality_witness :
    ((demoCamera (α := ℚ)).aspect ≠ 0 ∧ (demoCamera (α := ℚ)).fov ≠ 0 ∧
      (Vec2.mk (0 : ℚ) 5).y ≠ 0) ∧
    M7_ToWorldChecked (demoCamera (α := ℚ)) ⟨0, 5⟩ =
      some (M7_ToWorld (demoCamera (α := ℚ)) ⟨0, 5⟩) :=
  ⟨⟨by norm_num [demoCamera], by norm_num [demoCamera], by norm_num⟩,
    (claim_C8_toWorld_partiality (demoCamera (α := ℚ)) ⟨0, 5⟩ (by norm_num [demoCamera])
        (by norm_num [demoCamera])).2 (by norm_num)⟩

/-- Claim C9: the single-plane convenience path M7_Camera_Update is the
composition Begin, DrawPlane with centered origin
(texture.width x scale.x x 0.5, texture.height x scale.y x 0.5), End:
same final state and same command trace. -/
theorem claim_C9_update_is_begin_plane_end (camera : M7_Camera α) (texture : Texture2D)
    (position scale : Vec2 α) (wrap : Int) (backgroundColor : Color) :
    M7_Camera_Update camera texture position scale wrap backgroundColor =
      (let bc := M7_Camera_Begin camera backgroundColor
       let dc := M7_Camera_DrawPlane bc.1 texture position
         ⟨(texture.width : α) * scale.x * (1 / 2), (texture.height : α) * scale.y * (1 / 2)⟩
         scale wrap
       let ec := M7_Camera_End dc.1
       (ec.1, bc.2 ++ dc.2 ++ ec.2)) :=
  rfl

/-- Claim C5 evidence: M7_ZBuffer_Element_Update derives the on-screen
rectangle HEIGHT from the world rectangle WIDTH (m7.h line 767), while
the claim (and the function's own vertical anchor offset, line 764) uses
the world rectangle height; at a world source rectangle of width 2 and
height 1 under the demo camera the code produces height 16 where the
claimed formula gives 8.  The remaining fields (scale, width, position,
distance) do follow the claimed formulas. -/
theorem claim_C5_update_height_from_width :
    (∀ (e : M7_ZBuffer_Element α) (c : M7_Camera α),
        (M7_ZBuffer_Element_Update e c).onScreen.rectangle.height =
          e.onWorld.rectangle.width * (M7_ZBuffer_Element_Update e c).onScreen.scale.y) ∧
    (∀ (e : M7_ZBuffer_Element α) (c : M7_Camera α),
        (M7_ZBuffer_Element_Update e c).onScreen.rectangle.y =
          (M7_ToScreen c e.onWorld.position).y -
            e.onWorld.rectangle.height * (M7_ZBuffer_Element_Update e c).onScreen.scale.y) ∧
    (∀ (e : M7_ZBuffer_Element α) (c : M7_Camera α),
        (M7_ZBuffer_Element_Update e c).onScreen.scale.y =
          (M7_ToScreen c e.onWorld.position).z * e.onWorld.scale.y /
            e.onWorld.rectangle.height) ∧
    (M7_ZBuffer_Element_Update (wideElement (α := ℚ)) demoCamera).onScreen.scale.y = 8 ∧
    (M7_ZBuffer_Element_Update (wideElement (α := ℚ)) demoCamera).onScreen.rectangle.height =
      16 ∧
    (wideElement (α := ℚ)).onWorld.rectangle.height *
        (M7_ZBuffer_Element_Update (wideElement (α := ℚ)) demoCamera).onScreen.scale.y = 8 ∧
    (M7_ZBuffer_Element_Update (wideElement (α := ℚ)) demoCamera).onScreen.rectangle.height ≠
      (wideElement (α := ℚ)).onWorld.rectangle.height *
        (M7_ZBuffer_Element_Update (wideElement (α := ℚ)) demoCamera).onScreen.scale.y := by
  refine ⟨fun e c => rfl, fun e c => rfl, fun e c => rfl, ?_, ?_, ?_, ?_⟩ <;>
    norm_num [M7_ZBuffer_Element_Update, M7_ToScreen, wideElement, demoCamera, zeroElement]

/-- The qsort comparator of m7.h orders by distance: it is non-positive
exactly when the first element is at most as distant as the second. -/
theorem compare_nonpos_iff (e1 e2 : M7_ZBuffer_Element α) :
    M7_ZBuffer_Compare e1 e2 ≤ 0 ↔ e1.distance ≤ e2.distance := by
  unfold M7_ZBuffer_Compare
  rcases lt_trichotomy e1.distance e2.distance with h | h | h
  · simp [h, asymm h, le_of_lt h]
  · simp [h]
  · simp [h, asymm h, not_le.mpr h]

/-- Claim C3: after M7_ZBuffer_Sort the distances read along the pointer
array are non-decreasing, the pointer array is a permutation of the
pre-sort one, and the draw pass visits elements in exactly the sorted
pointer-array order. -/
theorem claim_C3_sort_nondecreasing (buffer : M7_ZBuffer α)
    (hdist : (buffer.elems.map M7_ZBuffer_Element.distance).Pairwise (· ≠ ·)) :
    ((M7_ZBuffer_Sort buffer).ptrElems.map fun i => (elemAt buffer i).distance).Sorted
        (· ≤ ·) ∧
    (M7_ZBuffer_Sort buffer).ptrElems.Perm buffer.ptrElems ∧
    M7_ZBuffer_Draw (M7_ZBuffer_Sort buffer) =
      (M7_ZBuffer_Sort buffer).ptrElems.map fun i =>
        M7_ZBuffer_Element_Draw (elemAt (M7_ZBuffer_Sort buffer) i) := by
  have hTotal :
      IsTotal Nat fun i j => M7_ZBuffer_Compare (elemAt buffer i) (elemAt buffer j) ≤ 0 := by
    constructor
    intro i j
    rcases le_total (elemAt buffer i).distance (elemAt buffer j).distance with h | h
    · exact Or.inl ((compare_nonpos_iff _ _).2 h)
    · exact Or.inr ((compare_nonpos_iff _ _).2 h)
  have hTrans :
      IsTrans Nat fun i j => M7_ZBuffer_Compare (elemAt buffer i) (elemAt buffer j) ≤ 0 := by
    constructor
    intro i j k hij hjk
    exact (compare_nonpos_iff _ _).2
      (le_trans ((compare_nonpos_iff _ _).1 hij) ((compare_nonpos_iff _ _).1 hjk))
  refine ⟨?_, List.perm_insertionSort _ _, rfl⟩
  have hs :=
    @List.sorted_insertionSort Nat
      (fun i j => M7_ZBuffer_Compare (elemAt buffer i) (elemAt buffer j) ≤ 0)
      (fun i j => Int.decLe _ _) hTotal hTrans buffer.ptrElems
  rw [List.Sorted, List.pairwise_map]
  exact hs.imp fun h => (compare_nonpos_iff _ _).1 h

/-- Witness for claim C3: a three-element buffer with distances 3, 1, 2
over ℚ. -/
theorem claim_C3_sort_nondecreasing_witness :
    ((M7_ZBuffer.mk [0, 1, 2]
          [{ zeroElement (α := ℚ) with distance := 3 },
            { zeroElement (α := ℚ) with distance := 1 },
            { zeroElement (α := ℚ) with distance := 2 }] 3 3).elems.map
        M7_ZBuffer_Element.distance).Pairwise (· ≠ ·) ∧
    ((M7_ZBuffer_Sort
          (M7_ZBuffer.mk [0, 1, 2]
            [{ zeroElement (α := ℚ) with distance := 3 },
              { zeroElement (α := ℚ) with distance := 1 },
              { zeroElement (α := ℚ) with distance := 2 }] 3 3)).ptrElems.map fun i =>
        (elemAt
            (M7_ZBuffer.mk [0, 1, 2]
              [{ zeroElement (α := ℚ) with distance := 3 },
                { zeroElement (α := ℚ) with distance := 1 },
                { zeroElement (α := ℚ) with distance := 2 }] 3 3) i).distance).Sorted
      (· ≤ ·) := by
  have hdist :
      ((M7_ZBuffer.mk [0, 1, 2]
            [{ zeroElement (α := ℚ) with distance := 3 },
              { zeroElement (α := ℚ) with distance := 1 },
              { zeroElement (α := ℚ) with distance := 2 }] 3 3).elems.map
          M7_ZBuffer_Element.distance).Pairwise (· ≠ ·) := by
    norm_num [zeroElement]
  exact ⟨hdist, (claim_C3_sort_nondecreasing _ hdist).1⟩

/-- Counterexample to claim C7 as stated: the portrait camera produced by
M7_Camera_Load(720, 1280, (0,0), 0, 1, 1, 0.5, 0) has rotation 0,
offset 0.5, zoom 1 > 0, fov 1 > 0, yet the world point (1,0), whose
depth is positive, does not round-trip through M7_ToScreen and
M7_ToWorld (the x coordinate comes back as 81/256): the aspect field of
a portrait target is height/width while exact inversion of the screen-x
formula requires width/height. -/
theorem claim_C7_counterexample :
    M7_Camera_Load 720 1280 ⟨0, 0⟩ 0 1 1 (1 / 2) 0 = portraitCamera (α := ℝ) ∧
    (portraitCamera (α := ℚ)).rotation = 0 ∧
    (portraitCamera (α := ℚ)).offset = 1 / 2 ∧
    0 < (portraitCamera (α := ℚ)).zoom ∧
    0 < (portraitCamera (α := ℚ)).fov ∧
    0 < M7_depthAt (portraitCamera (α := ℚ)) ⟨1, 0⟩ ∧
    M7_ToWorld (portraitCamera (α := ℚ))
        ⟨(M7_ToScreen (portraitCamera (α := ℚ)) ⟨1, 0⟩).x,
          (M7_ToScreen (portraitCamera (α := ℚ)) ⟨1, 0⟩).y⟩ ≠
      ⟨1, 0⟩ := by
  refine ⟨?_, rfl, rfl, by norm_num [portraitCamera], by norm_num [portraitCamera], ?_, ?_⟩
  · simp only [M7_Camera_Load, M7_Camera_SetPosition, M7_Camera_SetRotation,
      M7_Camera_SetOffset, M7_Camera_SetZoom, M7_Camera_SetFOV, M7_ZBuffer_Load,
      portraitCamera]
    norm_num [Real.cos_zero, Real.sin_zero]
  · norm_num [M7_depthAt, portraitCamera]
  · norm_num [M7_ToWorld, M7_ToScreen, portraitCamera, Vec2.mk.injEq]

/-- Claim C7 as amended: the round trip holds for cameras with rotation 0
(identity rotation matrix), offset 0.5, positive zoom and fov, positive
target dimensions, and aspect equal to width/height — the value
M7_Camera_Load assigns exactly when width >= height (landscape or square
targets) — at every world point of positive depth. -/
theorem claim_C7_roundtrip_landscape (camera : M7_Camera α) (point : Vec2 α)
    (hrot : camera.rotMat = ⟨1, 0, 0, 1⟩)
    (hoff : camera.offset = 1 / 2)
    (hzoom : 0 < camera.zoom) (hfov : 0 < camera.fov)
    (hW : 0 < camera.targetW) (hH : 0 < camera.targetH)
    (hasp : camera.aspect = (camera.targetW : α) / (camera.targetH : α))
    (hdepth : 0 < M7_depthAt camera point) :
    M7_ToWorld camera ⟨(M7_ToScreen camera point).x, (M7_ToScreen camera point).y⟩ =
      point := by
  obtain ⟨W, H, buf, M, ⟨cx, cy⟩, rot, z, f, o, a⟩ := camera
  obtain ⟨px, py⟩ := point
  simp only [M7_Camera.rotMat] at hrot
  subst hrot
  simp only [M7_Camera.offset] at hoff
  subst hoff
  simp only [M7_Camera.aspect, M7_Camera.targetW, M7_Camera.targetH] at hasp
  subst hasp
  simp only [M7_Camera.zoom] at hzoom
  simp only [M7_Camera.fov] at hfov
  simp only [M7_Camera.targetW] at hW
  simp only [M7_Camera.targetH] at hH
  simp only [M7_depthAt] at hdepth
  simp only [M7_ToScreen, M7_ToWorld]
  have hz : z ≠ 0 := ne_of_gt hzoom
  have hf : f ≠ 0 := ne_of_gt hfov
  have hWa : (W : α) ≠ 0 := by
    have h0 : (0 : α) < (W : α) := by exact_mod_cast hW
    exact ne_of_gt h0
  have hHa : (0 : α) < (H : α) := by exact_mod_cast hH
  simp only [mul_zero, zero_mul, mul_one, neg_neg, add_zero, zero_add, sub_zero]
    at hdepth ⊢
  generalize hg : (cy - py) / z * f = g at hdepth ⊢
  have hdg : (1 : α) - g ≠ 0 := ne_of_gt hdepth
  have hpy : py = cy - g * z / f := by
    rw [← hg]
    field_simp
  have hYval :
      (g + 1 / 2 - 1) / (1 - g) * (H : α) + (H : α) = (H : α) / (2 * (1 - g)) := by
    field_simp
    ring
  have hY : (g + 1 / 2 - 1) / (1 - g) * (H : α) + (H : α) ≠ 0 := by
    rw [hYval]
    have h2d : (0 : α) < 2 * (1 - g) := by linarith
    exact ne_of_gt (div_pos hHa h2d)
  rw [Vec2.mk.injEq]
  constructor
  · rw [hYval]
    field_simp
    ring
  · rw [hYval, hpy]
    field_simp
    ring

/-- Witness for the amended claim C7: the demo camera (1280x720
landscape) round-trips the world point (17, 4). -/
theorem claim_C7_roundtrip_landscape_witness :
    ((demoCamera (α := ℚ)).rotMat = ⟨1, 0, 0, 1⟩ ∧
      (demoCamera (α := ℚ)).offset = 1 / 2 ∧
      0 < (demoCamera (α := ℚ)).zoom ∧
      0 < (demoCamera (α := ℚ)).fov ∧
      0 < (demoCamera (α := ℚ)).targetW ∧
      0 < (demoCamera (α := ℚ)).targetH ∧
      (demoCamera (α := ℚ)).aspect =
        ((demoCamera (α := ℚ)).targetW : ℚ) / ((demoCamera (α := ℚ)).targetH : ℚ) ∧
      0 < M7_depthAt (demoCamera (α := ℚ)) ⟨17, 4⟩) ∧
    M7_ToWorld (demoCamera (α := ℚ))
        ⟨(M7_ToScreen (demoCamera (α := ℚ)) ⟨17, 4⟩).x,
          (M7_ToScreen (demoCamera (α := ℚ)) ⟨17, 4⟩).y⟩ =
      ⟨17, 4⟩ :=
  ⟨⟨rfl, rfl, by norm_num [demoCamera], by norm_num [demoCamera], by decide, by decide,
      by norm_num [demoCamera], by norm_num [M7_depthAt, demoCamera]⟩,
    claim_C7_roundtrip_landscape (demoCamera (α := ℚ)) ⟨17, 4⟩ rfl rfl
      (by norm_num [demoCamera]) (by norm_num [demoCamera]) (by decide) (by decide)
      (by norm_num [demoCamera]) (by norm_num [M7_depthAt, demoCamera])⟩

/-- Every add operation of the public API goes through
M7_ZBuffer_Element_Add with the element record it builds. -/
theorem applyAdd_eq (c : M7_Camera α) (req : M7_AddRequest α) :
    M7_applyAdd c req =
      ((M7_ZBuffer_Element_Add c.buffer (M7_requestElement req)).1,
        { c with buffer := (M7_ZBuffer_Element_Add c.buffer (M7_requestElement req)).2 }) := by
  cases req <;> rfl

/-- Running adds distributes over list append. -/
theorem runAdds_append (l1 l2 : List (M7_AddRequest α)) :
    ∀ c : M7_Camera α,
      M7_runAdds c (l1 ++ l2) =
        ((M7_runAdds c l1).1 ++ (M7_runAdds (M7_runAdds c l1).2 l2).1,
          (M7_runAdds (M7_runAdds c l1).2 l2).2) := by
  induction l1 with
  | nil => intro c; simp [M7_runAdds]
  | cons r rs ih => intro c; simp [M7_runAdds, ih]

/-- Unfolding one step of M7_runAdds. -/
theorem runAdds_cons (c : M7_Camera α) (r : M7_AddRequest α) (rs : List (M7_AddRequest α)) :
    M7_runAdds c (r :: rs) =
      ((M7_applyAdd c r).1 :: (M7_runAdds (M7_applyAdd c r).2 rs).1,
        (M7_runAdds (M7_applyAdd c r).2 rs).2) := rfl

/-- As long as capacity remains, every add succeeds and returns the
consecutive backing indices, appending the built elements in order. -/
theorem runAdds_progress (reqs : List (M7_AddRequest α)) :
    ∀ c : M7_Camera α,
      c.buffer.count = c.buffer.elems.length →
      c.buffer.count + reqs.length ≤ c.buffer.maxCount →
      (M7_runAdds c reqs).1 = (List.range' c.buffer.count reqs.length).map some ∧
      (M7_runAdds c reqs).2.buffer.elems =
        c.buffer.elems ++ reqs.map M7_requestElement ∧
      (M7_runAdds c reqs).2.buffer.ptrElems =
        c.buffer.ptrElems ++ List.range' c.buffer.count reqs.length ∧
      (M7_runAdds c reqs).2.buffer.count = c.buffer.count + reqs.length ∧
      (M7_runAdds c reqs).2.buffer.maxCount = c.buffer.maxCount := by
  induction reqs with
  | nil =>
    intro c _ _
    refine ⟨rfl, by simp [M7_runAdds], by simp [M7_runAdds], by simp [M7_runAdds],
      by simp [M7_runAdds]⟩
  | cons r rs ih =>
    intro c hce hcap
    have hne : c.buffer.count ≠ c.buffer.maxCount := by
      simp only [List.length_cons] at hcap
      omega
    have hadd :
        M7_ZBuffer_Element_Add c.buffer (M7_requestElement r) =
          (some c.buffer.count,
            { c.buffer with
                elems := c.buffer.elems ++ [M7_requestElement r]
                ptrElems := c.buffer.ptrElems ++ [c.buffer.count]
                count := c.buffer.count + 1 }) := by
      simp [M7_ZBuffer_Element_Add, hne]
    have hstep :
        M7_applyAdd c r =
          (some c.buffer.count,
            { c with
                buffer :=
                  { c.buffer with
                      elems := c.buffer.elems ++ [M7_requestElement r]
                      ptrElems := c.buffer.ptrElems ++ [c.buffer.count]
                      count := c.buffer.count + 1 } }) := by
      rw [applyAdd_eq, hadd]
    have hih :=
      ih
        { c with
            buffer :=
              { c.buffer with
                  elems := c.buffer.elems ++ [M7_requestElement r]
                  ptrElems := c.buffer.ptrElems ++ [c.buffer.count]
                  count := c.buffer.count + 1 } }
        (by simp [hce]) (by simp only [List.length_cons] at hcap; simp; omega)
    rw [runAdds_cons, hstep]
    dsimp only at hih ⊢
    obtain ⟨h1, h2, h3, h4, h5⟩ := hih
    refine ⟨?_, ?_, ?_, ?_, ?_⟩
    · rw [h1]
      simp [List.range'_succ]
    · rw [h2]
      simp
    · rw [h3]
      simp [List.range'_succ]
    · rw [h4]
      simp only [List.length_cons]
      omega
    · rw [h5]

/-- Sorting permutes only the pointer array; the backing array is
untouched (this is what makes the returned references stable). -/
theorem sort_elems_stable (buffer : M7_ZBuffer α) :
    (M7_ZBuffer_Sort buffer).elems = buffer.elems := rfl

/-- No facade operation shrinks capacity below the element count. -/
theorem step_count_le {c c' : M7_Camera ℝ} (h : M7_Step c c')
    (hc : c.buffer.count ≤ c.buffer.maxCount) :
    c'.buffer.count ≤ c'.buffer.maxCount := by
  cases h with
  | setPosition p => exact hc
  | setRotation r => exact hc
  | setZoom z => exact hc
  | setFOV f => exact hc
  | setOffset o => exact hc
  | translate dx dy => exact hc
  | rotate d => exact hc
  | add req =>
    rw [applyAdd_eq]
    by_cases hfull : c.buffer.count = c.buffer.maxCount
    · simp [M7_ZBuffer_Element_Add, hfull]
    · simp [M7_ZBuffer_Element_Add, hfull]
      omega
  | endFrame => exact hc
  | unload => exact Nat.le_refl 0

/-- The camera produced by M7_Camera_Load starts with the fresh buffer. -/
theorem load_buffer (w h : Int) (pos : Vec2 ℝ) (rot z f o : ℝ) (cap : Nat) :
    (M7_Camera_Load w h pos rot z f o cap).buffer = M7_ZBuffer_Load cap := rfl

/-- Claim C2: with capacity K, the first K adds (of any kind) succeed and
return the K distinct backing indices 0..K-1, the (K+1)-th add returns
none and leaves the camera unchanged, the backing array then holds
exactly the K added element records (and sorting never moves it), and
count <= capacity holds in every reachable state. -/
theorem claim_C2_capacity (K : Nat) (camera : M7_Camera ℝ) (reqs : List (M7_AddRequest ℝ))
    (hbuf : camera.buffer = M7_ZBuffer_Load K) (hlen : reqs.length = K + 1) :
    (M7_runAdds camera reqs).1 = (List.range K).map some ++ [none] ∧
    ((List.range K).map some).Nodup ∧
    (M7_runAdds camera reqs).2 = (M7_runAdds camera (reqs.take K)).2 ∧
    (M7_runAdds camera reqs).2.buffer.elems = (reqs.take K).map M7_requestElement ∧
    (M7_runAdds camera reqs).2.buffer.count = K ∧
    (∀ buffer : M7_ZBuffer ℝ, (M7_ZBuffer_Sort buffer).elems = buffer.elems) ∧
    (∀ c : M7_Camera ℝ, M7_Reachable c → c.buffer.count ≤ c.buffer.maxCount) := by
  have htake : (reqs.take K).length = K := by
    rw [List.length_take]
    omega
  have hprog :=
    runAdds_progress (reqs.take K) camera (by rw [hbuf]; rfl)
      (by simp [hbuf, M7_ZBuffer_Load, htake])
  rw [hbuf] at hprog
  simp only [M7_ZBuffer_Load, htake, List.nil_append, Nat.zero_add] at hprog
  obtain ⟨hres, helems, hptrs, hcnt, hmax⟩ := hprog
  obtain ⟨last, hlast⟩ : ∃ r, reqs.drop K = [r] := by
    have hld : (reqs.drop K).length = 1 := by
      rw [List.length_drop]
      omega
    exact List.length_eq_one.1 hld
  have hsplit : reqs = reqs.take K ++ [last] := by
    conv_lhs => rw [← List.take_append_drop K reqs]
    rw [hlast]
  have haddfail :
      M7_ZBuffer_Element_Add (M7_runAdds camera (reqs.take K)).2.buffer
          (M7_requestElement last) =
        (none, (M7_runAdds camera (reqs.take K)).2.buffer) := by
    simp [M7_ZBuffer_Element_Add, hcnt, hmax]
  have hfail :
      M7_applyAdd (M7_runAdds camera (reqs.take K)).2 last =
        (none, (M7_runAdds camera (reqs.take K)).2) := by
    rw [applyAdd_eq, haddfail]
  have hone :
      M7_runAdds (M7_runAdds camera (reqs.take K)).2 [last] =
        ([none], (M7_runAdds camera (reqs.take K)).2) := by
    rw [runAdds_cons, hfail]
    rfl
  have happ := runAdds_append (reqs.take K) [last] camera
  refine ⟨?_, ?_, ?_, ?_, ?_, fun _ => rfl, ?_⟩
  · conv_lhs => rw [hsplit]
    rw [happ, hone]
    dsimp only
    rw [hres, List.range_eq_range']
  · exact (List.nodup_range K).map (Option.some_injective Nat)
  · conv_lhs => rw [hsplit]
    rw [happ, hone]
  · conv_lhs => rw [hsplit]
    rw [happ, hone]
    dsimp only
    exact helems
  · conv_lhs => rw [hsplit]
    rw [happ, hone]
    dsimp only
    exact hcnt
  · intro c hc
    obtain ⟨w, ht, pos, rot, z, f, o, cap, hsteps⟩ := hc
    induction hsteps with
    | refl => exact Nat.zero_le _
    | tail hab hstep ih => exact step_count_le hstep ih

/-- Witness for claim C2: capacity 1 over ℝ, one rectangle add succeeds
with index 0, a second (circle) add returns none. -/
theorem claim_C2_capacity_witness :
    (({ demoCamera (α := ℝ) with buffer := M7_ZBuffer_Load 1 } : M7_Camera ℝ).buffer =
        M7_ZBuffer_Load 1 ∧
      ([M7_AddRequest.rectangle ⟨0, 0, 1, 1⟩ ⟨0, 0, 0, 0⟩,
          M7_AddRequest.circle ⟨0, 0⟩ 1 ⟨0, 0, 0, 0⟩] :
            List (M7_AddRequest ℝ)).length = 1 + 1) ∧
    (M7_runAdds ({ demoCamera (α := ℝ) with buffer := M7_ZBuffer_Load 1 })
          [M7_AddRequest.rectangle ⟨0, 0, 1, 1⟩ ⟨0, 0, 0, 0⟩,
            M7_AddRequest.circle ⟨0, 0⟩ 1 ⟨0, 0, 0, 0⟩]).1 =
      (List.range 1).map some ++ [none] :=
  ⟨⟨rfl, rfl⟩,
    (claim_C2_capacity 1 { demoCamera (α := ℝ) with buffer := M7_ZBuffer_Load 1 }
        [M7_AddRequest.rectangle ⟨0, 0, 1, 1⟩ ⟨0, 0, 0, 0⟩,
          M7_AddRequest.circle ⟨0, 0⟩ 1 ⟨0, 0, 0, 0⟩] rfl rfl).1⟩

/-- Every facade operation preserves the rotation-matrix invariant. -/
theorem step_rotMat {c c' : M7_Camera ℝ} (h : M7_Step c c')
    (hc : c.rotMat =
      ⟨Real.cos c.rotation, -Real.sin c.rotation, Real.sin c.rotation,
        Real.cos c.rotation⟩) :
    c'.rotMat =
      ⟨Real.cos c'.rotation, -Real.sin c'.rotation, Real.sin c'.rotation,
        Real.cos c'.rotation⟩ := by
  cases h with
  | setPosition p => exact hc
  | setRotation r => rfl
  | setZoom z => exact hc
  | setFOV f => exact hc
  | setOffset o => exact hc
  | translate dx dy => exact hc
  | rotate d => rfl
  | add req => cases req <;> exact hc
  | endFrame => exact hc
  | unload => exact hc

/-- Claim C6: M7_Camera_SetRotation stores the angle and recomputes the
cached matrix as (cos, -sin, sin, cos); M7_Camera_Rotate goes through
it; and in every reachable camera state the cached matrix equals the
cosine/sine matrix of the current rotation field. -/
theorem claim_C6_rotation_matrix :
    (∀ (c : M7_Camera ℝ) (angle : ℝ),
        (M7_Camera_SetRotation c angle).rotMat =
          ⟨Real.cos angle, -Real.sin angle, Real.sin angle, Real.cos angle⟩ ∧
        (M7_Camera_SetRotation c angle).rotation = angle) ∧
    (∀ (c : M7_Camera ℝ) (delta : ℝ),
        M7_Camera_Rotate c delta = M7_Camera_SetRotation c (c.rotation + delta)) ∧
    (∀ c : M7_Camera ℝ, M7_Reachable c →
        c.rotMat =
          ⟨Real.cos c.rotation, -Real.sin c.rotation, Real.sin c.rotation,
            Real.cos c.rotation⟩) := by
  refine ⟨fun c angle => ⟨rfl, rfl⟩, fun c delta => rfl, ?_⟩
  intro c hc
  obtain ⟨w, ht, pos, rot, z, f, o, cap, hsteps⟩ := hc
  induction hsteps with
  | refl => rfl
  | tail hab hstep ih => exact step_rotMat hstep ih

/-- Witness for claim C6: the freshly loaded demo camera is reachable and
satisfies the invariant. -/
theorem claim_C6_rotation_matrix_witness :
    M7_Reachable (M7_Camera_Load 1280 720 ⟨0, 0⟩ 0 80 (1 / 2) (1 / 2) 48) ∧
    (M7_Camera_Load 1280 720 ⟨0, 0⟩ 0 80 (1 / 2) (1 / 2) 48).rotMat =
      ⟨Real.cos (M7_Camera_Load 1280 720 ⟨0, 0⟩ 0 80 (1 / 2) (1 / 2) 48).rotation,
        -Real.sin (M7_Camera_Load 1280 720 ⟨0, 0⟩ 0 80 (1 / 2) (1 / 2) 48).rotation,
        Real.sin (M7_Camera_Load 1280 720 ⟨0, 0⟩ 0 80 (1 / 2) (1 / 2) 48).rotation,
        Real.cos (M7_Camera_Load 1280 720 ⟨0, 0⟩ 0 80 (1 / 2) (1 / 2) 48).rotation⟩ :=
  ⟨⟨1280, 720, ⟨0, 0⟩, 0, 80, 1 / 2, 1 / 2, 48, Relation.ReflTransGen.refl⟩,
    claim_C6_rotation_matrix.2.2 _
      ⟨1280, 720, ⟨0, 0⟩, 0, 80, 1 / 2, 1 / 2, 48, Relation.ReflTransGen.refl⟩⟩

/-- No facade operation writes the aspect field. -/
theorem step_aspect {c c' : M7_Camera ℝ} (h : M7_Step c c') : c'.aspect = c.aspect := by
  cases h with
  | setPosition p => rfl
  | setRotation r => rfl
  | setZoom z => rfl
  | setFOV f => rfl
  | setOffset o => rfl
  | translate dx dy => rfl
  | rotate d => rfl
  | add req => cases req <;> rfl
  | endFrame => rfl
  | unload => rfl

/-- Claim C10: M7_Camera_Load sets aspect to the larger screen dimension
over the smaller one (hence aspect >= 1 for positive dimensions), no
subsequent operation modifies it, M7_ToScreen never reads it, and
M7_ToWorld does read it. -/
theorem claim_C10_aspect :
    (∀ (w h : Int) (pos : Vec2 ℝ) (rot z f o : ℝ) (cap : Nat),
        (M7_Camera_Load w h pos rot z f o cap).aspect =
          if w > h then (w : ℝ) / (h : ℝ) else (h : ℝ) / (w : ℝ)) ∧
    (∀ (w h : Int) (pos : Vec2 ℝ) (rot z f o : ℝ) (cap : Nat), 0 < w → 0 < h →
        1 ≤ (M7_Camera_Load w h pos rot z f o cap).aspect) ∧
    (∀ c c' : M7_Camera ℝ, Relation.ReflTransGen M7_Step c c' → c'.aspect = c.aspect) ∧
    (∀ (c : M7_Camera ℝ) (a : ℝ) (p : Vec2 ℝ),
        M7_ToScreen { c with aspect := a } p = M7_ToScreen c p) ∧
    M7_ToWorld ({ demoCamera (α := ℚ) with aspect := 2 }) ⟨0, 5⟩ ≠
      M7_ToWorld (demoCamera (α := ℚ)) ⟨0, 5⟩ := by
  refine ⟨fun w h pos rot z f o cap => rfl, ?_, ?_, fun c a p => rfl, ?_⟩
  · intro w h pos rot z f o cap hw hh
    show (1 : ℝ) ≤ if w > h then (w : ℝ) / (h : ℝ) else (h : ℝ) / (w : ℝ)
    have hwr : (0 : ℝ) < (w : ℝ) := by exact_mod_cast hw
    have hhr : (0 : ℝ) < (h : ℝ) := by exact_mod_cast hh
    split_ifs with hgt
    · have hle : (h : ℝ) ≤ (w : ℝ) := by exact_mod_cast le_of_lt hgt
      exact (one_le_div hhr).2 hle
    · have hle : (w : ℝ) ≤ (h : ℝ) := by exact_mod_cast not_lt.1 hgt
      exact (one_le_div hwr).2 hle
  · intro c c' hsteps
    induction hsteps with
    | refl => rfl
    | tail hab hstep ih => rw [step_aspect hstep, ih]
  · norm_num [M7_ToWorld, demoCamera, Vec2.mk.injEq]

/-- Witness for claim C10: the demo load has aspect at least 1, and a
zoom change preserves the aspect. -/
theorem claim_C10_aspect_witness :
    ((0 : Int) < 1280 ∧ (0 : Int) < 720) ∧
    1 ≤ (M7_Camera_Load 1280 720 ⟨0, 0⟩ 0 80 (1 / 2) (1 / 2) 48).aspect ∧
    (M7_Camera_SetZoom (M7_Camera_Load 1280 720 ⟨0, 0⟩ 0 80 (1 / 2) (1 / 2) 48) 5).aspect =
      (M7_Camera_Load 1280 720 ⟨0, 0⟩ 0 80 (1 / 2) (1 / 2) 48).aspect :=
  ⟨⟨by decide, by decide⟩,
    claim_C10_aspect.2.1 1280 720 ⟨0, 0⟩ 0 80 (1 / 2) (1 / 2) 48 (by decide) (by decide),
    claim_C10_aspect.2.2.1 _ _
      (Relation.ReflTransGen.single
        (M7_Step.setZoom (M7_Camera_Load 1280 720 ⟨0, 0⟩ 0 80 (1 / 2) (1 / 2) 48) 5))⟩

end M7
